import Mathlib

/-!
Shallow embedding of the muclic music-downloader CLI (Python).

The embedding follows the package sources `src/muclic/*.py` (the current
code) and, where a claim also cites it, the single-file revision
`muclic.py`.  External collaborators (the YouTube Music catalog, yt-dlp,
mutagen, the file system) are modelled as explicit inputs: the catalog
lookup `yt.get_album` becomes a function parameter, a download's result
blob becomes an argument, and raised Python exceptions become
`Except.error` values carrying the exception's name.
-/

namespace Muclic

/-! ## Python primitives used by the code -/

/-- Python `str.split(sep)` for a single-character separator, on the
character list of the string: splits at every occurrence of `sep`,
keeping empty segments, so the result is always nonempty
(`"".split(",") == [""]`). -/
def pySplitChars (sep : Char) : List Char → List (List Char)
  | [] => [[]]
  | c :: rest =>
      if c = sep then [] :: pySplitChars sep rest
      else
        match pySplitChars sep rest with
        | [] => [[c]]
        | g :: gs => (c :: g) :: gs

/-- Python `s.split(sep)` for a one-character separator. -/
def pySplit (sep : Char) (s : String) : List String :=
  (pySplitChars sep s.data).map String.mk

/-- Python `str.split()` with no argument: splits on runs of whitespace
and never yields empty tokens (`"".split() == []`). The accumulator holds
the current word reversed. -/
def pyWordsAux : List Char → List Char → List String
  | [], acc => if acc.isEmpty then [] else [String.mk acc.reverse]
  | c :: rest, acc =>
      if c.isWhitespace then
        if acc.isEmpty then pyWordsAux rest []
        else String.mk acc.reverse :: pyWordsAux rest []
      else pyWordsAux rest (c :: acc)

def pyWords (s : String) : List String := pyWordsAux s.data []

/-- Python `s.strip().lower()` as used on the choice-prompt input:
drop leading and trailing whitespace, lowercase the rest. -/
def pyStripLower (s : String) : String :=
  String.mk
    (((s.data.dropWhile Char.isWhitespace).reverse.dropWhile
        Char.isWhitespace).reverse.map Char.toLower)

/-- Python `int(token)` on a whitespace-free token: optional sign then at
least one ASCII digit, `none` on anything else (a `ValueError`).
Python additionally strips surrounding whitespace, accepts non-ASCII
decimal digits and underscore digit grouping; no claim depends on those,
and the tokens fed to `int` here come from `str.split()` so they carry no
whitespace. -/
def pyInt (s : String) : Option Int :=
  let (neg, digits) :=
    match s.data with
    | '-' :: rest => (true, rest)
    | '+' :: rest => (false, rest)
    | l => (false, l)
  if digits.isEmpty then none
  else if digits.all Char.isDigit then
    let n : Nat := digits.foldl (fun acc c => 10 * acc + (c.toNat - 48)) 0
    some (if neg then -(n : Int) else (n : Int))
  else none

/-- Python list indexing `l[i]`: negative indices count from the end,
out-of-range raises `IndexError`. -/
def pyIndex {α : Type} (l : List α) (i : Int) : Except String α :=
  let j : Int := if i < 0 then i + (l.length : Int) else i
  if h : 0 ≤ j ∧ j.toNat < l.length then .ok (l.get ⟨j.toNat, h.2⟩)
  else .error "IndexError"

/-! ## Data model (`helper_types.py`) -/

/-- One element of a search result's `artists` list: a dict of which the
code reads only the `name` key. -/
structure ArtistRef where
  name : String
deriving DecidableEq, Repr

/-- A thumbnail descriptor; the code guards for a missing `width` key
(`"width" not in thumb`), so the width is optional here. -/
structure Thumbnail where
  width : Option Int
  url : String
deriving DecidableEq, Repr

/-- The `artist` field of a yt-dlp info blob is typed `str | list[str]`. -/
inductive ArtistField
  | str (s : String)
  | list (l : List String)
deriving DecidableEq, Repr

/-- The fields of the yt-dlp `SongInfo` blob that the code reads.
`genre`, `track_number`, `n_entries` and `playlist_index` may be absent
(the code catches `KeyError` on them), hence `Option`; `release_year` is
present but may be `None`. -/
structure SongInfoT where
  release_year : Option Int
  artist : ArtistField
  album : String
  track : String
  genre : Option String
  track_number : Option Int
  n_entries : Option Int
  playlist_index : Option Int
deriving DecidableEq, Repr

/-- The fields of the yt-dlp `AlbumInfo` blob that the code reads. -/
structure AlbumInfoT where
  thumbnails : List Thumbnail
  entries : List SongInfoT
deriving DecidableEq, Repr

/-- A catalog search-result record, covering the fields read from
`SearchResult`, `SongSearchResult` (`album["name"]`, `videoId`) and
`AlbumSearchResult` (`browseId`, `thumbnails`). -/
structure SearchResultT where
  title : String
  artists : List ArtistRef
  album : String
  videoId : String
  browseId : String
  thumbnails : List Thumbnail
deriving DecidableEq, Repr

/-- `Song` (`song.py`): a `MediaItem` with `album_title` and `song_id`. -/
structure SongT where
  title : String
  artist : String
  path : String
  url : String
  cover : Option String
  info : Option SongInfoT
  album_title : String
  song_id : String
deriving DecidableEq, Repr

/-- `Album` (`album.py`): a `MediaItem` with `album_id` and owned songs. -/
structure AlbumT where
  title : String
  artist : String
  path : String
  url : String
  cover : Option String
  info : Option AlbumInfoT
  album_id : String
  songs : List SongT
deriving DecidableEq, Repr

/-- A `MediaItem` is a `Song` or an `Album`. -/
inductive MediaItemT
  | song (s : SongT)
  | album (a : AlbumT)
deriving DecidableEq, Repr

/-- `os.path.expanduser`, modelled as the identity: it only rewrites a
leading `~`, and no claim depends on that rewriting. -/
def expanduser (s : String) : String := s

def THUMB_RES : Int := 500

/-! ## Artist resolution (`song.py` 183-186, `album.py` 129-132,
`app.py` 71-74) -/

/-- The shared `try: artists[1]["name"] except IndexError: artists[0]["name"]`
pattern. On an empty list the handler's `artists[0]` raises `IndexError`
again, uncaught. -/
def resolveArtist (artists : List ArtistRef) : Except String String :=
  match artists.get? 1 with
  | some a => .ok a.name
  | none =>
      match artists.get? 0 with
      | some a => .ok a.name
      | none => .error "IndexError"

/-! ## Factories (`song.py`, `album.py`) -/

/-- `SongFactory.createSongFromSearch` (`song.py` 171-203). -/
def createSongFromSearch (data : SearchResultT) (dir : String) :
    Except String SongT :=
  match resolveArtist data.artists with
  | .error e => .error e
  | .ok artist =>
      .ok
        { title := data.title
          artist := artist
          path := expanduser (dir ++ "/" ++ artist ++ "/" ++ data.album)
          url := "https://music.youtube.com/watch?v=" ++ data.videoId
          cover := none
          info := none
          album_title := data.album
          song_id := data.videoId }

/-- Python `data["artist"][0]` on a `str | list[str]` value: on a string,
indexing yields the first character (or `IndexError` on the empty
string); on a list, the first element (or `IndexError` on empty). -/
def artistIndexZero : ArtistField → Except String String
  | .str s =>
      match s.data with
      | [] => .error "IndexError"
      | c :: _ => .ok (String.mk [c])
  | .list [] => .error "IndexError"
  | .list (a :: _) => .ok a

/-- `SongFactory.createSongFromSongInfo` (`song.py` 205-228). -/
def createSongFromSongInfo (data : SongInfoT) (path : String) :
    Except String SongT :=
  match artistIndexZero data.artist with
  | .error e => .error e
  | .ok artist =>
      .ok
        { title := data.track
          artist := artist
          path := path
          url := ""
          cover := none
          info := some data
          album_title := data.album
          song_id := "" }

/-- `AlbumFactory.createAlbum` (`album.py` 115-151); the `yt.get_album`
catalog round trip is the function parameter `get_album`, mapping a
browse id to the record's `audioPlaylistId`. -/
def createAlbum (get_album : String → String) (data : SearchResultT)
    (dir : String) : Except String AlbumT :=
  match resolveArtist data.artists with
  | .error e => .error e
  | .ok artist =>
      let album_id := get_album data.browseId
      .ok
        { title := data.title
          artist := artist
          path := expanduser (dir ++ "/" ++ artist ++ "/" ++ data.title)
          url := "https://music.youtube.com/playlist?list=" ++ album_id
          cover := none
          info := none
          album_id := album_id
          songs := [] }

/-! ## Cover selection (`Song.get_cover`, `song.py` 148-157;
`Album.get_cover`, `album.py` 80-89 — the two loops are identical) -/

/-- The `for thumb in thumbnails` loop: first thumbnail with a `width`
key and width at least `THUMB_RES`, else `None`. -/
def coverLoop : List Thumbnail → Option String
  | [] => none
  | t :: ts =>
      match t.width with
      | none => coverLoop ts
      | some w => if THUMB_RES ≤ w then some t.url else coverLoop ts

/-- Cover-URL selection: loop result, else `thumbnails[-1]["url"]`
(an `IndexError` on an empty list). -/
def selectCoverUrl (thumbnails : List Thumbnail) : Except String String :=
  match coverLoop thumbnails with
  | some url => .ok url
  | none =>
      match thumbnails.getLast? with
      | some t => .ok t.url
      | none => .error "IndexError"

/-! ## Tagging (`Song.tag`, `song.py` 62-124) -/

/-- The artist value written to the `ART` tag: for a string,
`artist.split(",")[0]` (the split is never empty); for a list,
`artist[0]` (`IndexError` on an empty list). -/
def tagArtist : ArtistField → Except String String
  | .str s => .ok (pySplit ',' s).headI
  | .list [] => .error "IndexError"
  | .list (a :: _) => .ok a

/-- The `trkn` tag value: `(track_number, n_entries)` when both keys are
present; on a `KeyError` there, `(playlist_index, n_entries)` when both
of those are present; otherwise nothing is written. -/
def trknValue (info : SongInfoT) : Option (Int × Int) :=
  match info.track_number, info.n_entries with
  | some t, some n => some (t, n)
  | _, _ =>
      match info.playlist_index, info.n_entries with
      | some p, some n => some (p, n)
      | _, _ => none

/-- The tag fields `Song.tag` writes. `day`, `gen` and `trkn` are
optional; `covr` records that the cover bytes were embedded. -/
structure WrittenTags where
  art : String
  alb : String
  nam : String
  day : Option String
  gen : Option (List String)
  trkn : Option (Int × Int)
  covr : Bool
deriving DecidableEq, Repr

/-- The field-writing part of `Song.tag` (`song.py` 91-124), given the
info blob. File lookup, `mp4.MP4` and the cover file are external; the
only failure modelled is `artist[0]` on an empty artist list. -/
def songTagWritten (info : SongInfoT) : Except String WrittenTags :=
  match tagArtist info.artist with
  | .error e => .error e
  | .ok a =>
      .ok
        { art := a
          alb := info.album
          nam := info.track
          day := info.release_year.map (fun y => toString y)
          gen := info.genre.map (fun g => [g])
          trkn := trknValue info
          covr := true }

/-! ## Album download and song population (`album.py` 34-59, 96-107) -/

/-- The `for entry in entries` loop of `Album.add_songs`: children built
by `createSongFromSongInfo` in entry order; a raised error aborts the
run. -/
def buildSongs (path : String) : List SongInfoT → Except String (List SongT)
  | [] => .ok []
  | e :: rest =>
      match createSongFromSongInfo e path with
      | .error err => .error err
      | .ok s =>
          match buildSongs path rest with
          | .error err => .error err
          | .ok ss => .ok (s :: ss)

/-- `Album.add_songs` (`album.py` 96-107): asserts info is present and
appends one child song per entry to `songs`. -/
def addSongs (a : AlbumT) : Except String AlbumT :=
  match a.info with
  | none => .error "AssertionError"
  | some info =>
      match buildSongs a.path info.entries with
      | .error err => .error err
      | .ok newSongs => .ok { a with songs := a.songs ++ newSongs }

/-- `Album.download` (`album.py` 34-59): the yt-dlp invocation is
external, so the fetched metadata blob is a parameter; the method stores
it in `info` and then calls `add_songs`. -/
def albumDownload (a : AlbumT) (fetched : AlbumInfoT) : Except String AlbumT :=
  addSongs { a with info := some fetched }

/-! ## App orchestration (`app.py`) -/

/-- Result of `App.tag_items` (`app.py` 156-176): which items had
`get_cover` and `tag` run on them (in order), and whether the
missing-mutagen warnings were logged. -/
structure TagItemsResult where
  processed : List MediaItemT
  warned : Bool
deriving Repr

/-- `App.tag_items` (`app.py` 156-176): return immediately (silently) if
the no-tag flag is set; warn and return if `mutagen` is not in
`sys.modules`; otherwise fetch a cover for and tag every item. -/
def tag_items (no_tag : Bool) (mutagenInSysModules : Bool)
    (items : List MediaItemT) : TagItemsResult :=
  if no_tag then { processed := [], warned := false }
  else if !mutagenInSysModules then { processed := [], warned := true }
  else { processed := items, warned := false }

/-- Outcome of the choice prompt loop. -/
inductive ChoiceOutcome
  | quit
  | choices (picks : List Int)
  | exhausted
deriving DecidableEq, Repr

/-- The `while True` input loop of `App.get_user_choices`
(`app.py` 85-97), over the scripted list of input lines: quit on a
stripped-lowercased `"q"`, parse the line's whitespace-separated tokens
as ints, and re-prompt on a `ValueError`. `exhausted` marks running out
of scripted lines. -/
def choiceLoop : List String → ChoiceOutcome
  | [] => .exhausted
  | line :: rest =>
      if pyStripLower line = "q" then .quit
      else
        match (pyWords line).mapM pyInt with
        | some picks => .choices picks
        | none => choiceLoop rest

/-- The result-listing loop of `App.get_user_choices` (`app.py` 70-81):
resolves an artist for every result to print `artist - title`; an empty
artists list raises there, before the prompt. -/
def listArtists : List SearchResultT → Except String (List String)
  | [] => .ok []
  | r :: rs =>
      match resolveArtist r.artists with
      | .error e => .error e
      | .ok a =>
          match listArtists rs with
          | .error e => .error e
          | .ok rest => .ok (a :: rest)

/-- `App.get_user_choices` (`app.py` 61-97): print the listing, then run
the input loop. -/
def get_user_choices (results : List SearchResultT) (inputs : List String) :
    Except String ChoiceOutcome :=
  match listArtists results with
  | .error e => .error e
  | .ok _ => .ok (choiceLoop inputs)

/-- The song branch of `App.create_media_items` (`app.py` 116-121):
`sf.createSongFromSearch(search_results[choice - 1], dir)` per pick. -/
def buildSongItems (dir : String) :
    List Int → List SearchResultT → Except String (List MediaItemT)
  | [], _ => .ok []
  | c :: cs, results =>
      match pyIndex results (c - 1) with
      | .error e => .error e
      | .ok r =>
          match createSongFromSearch r dir with
          | .error e => .error e
          | .ok s =>
              match buildSongItems dir cs results with
              | .error e => .error e
              | .ok rest => .ok (.song s :: rest)

/-- The album branch of `App.create_media_items` (`app.py` 122-127):
`af.createAlbum(search_results[choice - 1], self.args.dir)` — the call
omits `createAlbum`'s required third parameter `yt`, so after the
indexing succeeds the call itself raises `TypeError`. -/
def buildAlbumItemsApp :
    List Int → List SearchResultT → Except String (List MediaItemT)
  | [], _ => .ok []
  | c :: _, results =>
      match pyIndex results (c - 1) with
      | .error e => .error e
      | .ok _ => .error "TypeError"

/-- `App.create_media_items` as written in the package (`app.py` 99-128). -/
def create_media_items_app (is_song : Bool) (dir : String)
    (choices : List Int) (results : List SearchResultT) :
    Except String (List MediaItemT) :=
  if is_song then buildSongItems dir choices results
  else buildAlbumItemsApp choices results

/-- The album branch of the single-file revision's `create_media_items`
(`muclic.py` 541-546), which does pass `self.yt` to `createAlbum`. -/
def buildAlbumItems (get_album : String → String) (dir : String) :
    List Int → List SearchResultT → Except String (List MediaItemT)
  | [], _ => .ok []
  | c :: cs, results =>
      match pyIndex results (c - 1) with
      | .error e => .error e
      | .ok r =>
          match createAlbum get_album r dir with
          | .error e => .error e
          | .ok a =>
              match buildAlbumItems get_album dir cs results with
              | .error e => .error e
              | .ok rest => .ok (.album a :: rest)

/-- `App.create_media_items` of the single-file revision
(`muclic.py` 519-547). -/
def create_media_items_monolith (is_song : Bool)
    (get_album : String → String) (dir : String) (choices : List Int)
    (results : List SearchResultT) : Except String (List MediaItemT) :=
  if is_song then buildSongItems dir choices results
  else buildAlbumItems get_album dir choices results

/-- Outcome of the choose-then-create phase of `main`. `exited code`
models a `SystemExit`: Python's `exit()` with no argument carries `None`
and terminates the process with status 0. -/
inductive PhaseResult
  | exited (code : Nat)
  | stuck
  | built (items : Except String (List MediaItemT))

/-- The `get_user_choices` / `create_media_items` sequence of `main`
(`__main__.py` 24-26): on quit nothing further runs and the process
exits with status 0; otherwise the picks are turned into media items. -/
def runChoicePhase (is_song : Bool) (dir : String)
    (results : List SearchResultT) (inputs : List String) :
    Except String PhaseResult :=
  match get_user_choices results inputs with
  | .error e => .error e
  | .ok .quit => .ok (.exited 0)
  | .ok .exhausted => .ok .stuck
  | .ok (.choices picks) =>
      .ok (.built (create_media_items_app is_song dir picks results))

/-! ## Sample data for concrete instantiations -/

def sampleSearch : SearchResultT :=
  { title := "T", artists := [⟨"First"⟩, ⟨"Second"⟩], album := "Al",
    videoId := "v", browseId := "b", thumbnails := [] }

def sampleSongFromSearch : SongT :=
  { title := "T", artist := "Second", path := "d/Second/Al",
    url := "https://music.youtube.com/watch?v=v", cover := none, info := none,
    album_title := "Al", song_id := "v" }

def sampleAlbumFromSearch : AlbumT :=
  { title := "T", artist := "Second", path := "d/Second/T",
    url := "https://music.youtube.com/playlist?list=pid", cover := none,
    info := none, album_id := "pid", songs := [] }

/-! ## Supporting lemmas -/

theorem resolveArtist_ok (l : List ArtistRef) (h : l ≠ []) :
    ∃ a, resolveArtist l = Except.ok a := by
  match l with
  | [a] => exact ⟨a.name, rfl⟩
  | a :: b :: t => exact ⟨b.name, rfl⟩

/-! ## C1: representative-artist resolution -/

/-- C1: for every search-result record whose artists list has at least 2
entries, the resolved representative artist (shared by
`createSongFromSearch`, `createAlbum` and the result listing) is the name
at index 1; for a record with exactly 1 entry it is the name at index 0. -/
theorem c1_artist_resolution :
    (∀ (l : List ArtistRef) (h : 1 < l.length),
        resolveArtist l = Except.ok (l.get ⟨1, h⟩).name) ∧
    (∀ (l : List ArtistRef) (h : 0 < l.length), l.length = 1 →
        resolveArtist l = Except.ok (l.get ⟨0, h⟩).name) ∧
    (∀ (data : SearchResultT) (dir : String) (s : SongT),
        createSongFromSearch data dir = Except.ok s →
        resolveArtist data.artists = Except.ok s.artist) ∧
    (∀ (ga : String → String) (data : SearchResultT) (dir : String)
        (a : AlbumT), createAlbum ga data dir = Except.ok a →
        resolveArtist data.artists = Except.ok a.artist) := by
  refine ⟨?_, ?_, ?_, ?_⟩
  · intro l h
    unfold resolveArtist
    rw [List.get?_eq_get h]
  · intro l h h1
    obtain ⟨a, rfl⟩ := List.length_eq_one.mp h1
    rfl
  · intro data dir s h
    unfold createSongFromSearch at h
    cases eq : resolveArtist data.artists with
    | error e => rw [eq] at h; exact absurd h (by simp)
    | ok artist =>
        rw [eq] at h
        simp only [Except.ok.injEq] at h
        subst h
        rfl
  · intro ga data dir a h
    unfold createAlbum at h
    cases eq : resolveArtist data.artists with
    | error e => rw [eq] at h; exact absurd h (by simp)
    | ok artist =>
        rw [eq] at h
        simp only [Except.ok.injEq] at h
        subst h
        rfl

/-- C1 witness: the theorem applied at concrete records. -/
theorem c1_artist_resolution_witness :
    resolveArtist [⟨"First"⟩, ⟨"Second"⟩] = Except.ok "Second" ∧
    resolveArtist [⟨"Solo"⟩] = Except.ok "Solo" ∧
    resolveArtist sampleSearch.artists = Except.ok "Second" ∧
    resolveArtist sampleSearch.artists = Except.ok "Second" :=
  ⟨c1_artist_resolution.1 [⟨"First"⟩, ⟨"Second"⟩] (by decide),
   c1_artist_resolution.2.1 [⟨"Solo"⟩] (by decide) (by decide),
   c1_artist_resolution.2.2.1 sampleSearch "d" sampleSongFromSearch (by rfl),
   c1_artist_resolution.2.2.2 (fun _ => "pid") sampleSearch "d"
     sampleAlbumFromSearch (by rfl)⟩

/-! ## C7: empty artists list is fatal -/

/-- C7: for every search-result record whose artists list is empty,
`createSongFromSearch` and `createAlbum` fail with a propagated
`IndexError` — no media item with a defaulted artist is produced. -/
theorem c7_empty_artists_fatal (data : SearchResultT) (dir : String)
    (ga : String → String) (h : data.artists = []) :
    createSongFromSearch data dir = Except.error "IndexError" ∧
    createAlbum ga data dir = Except.error "IndexError" := by
  have hr : resolveArtist data.artists = Except.error "IndexError" := by
    rw [h]; rfl
  constructor
  · unfold createSongFromSearch; rw [hr]
  · unfold createAlbum; rw [hr]

def emptyArtistSearch : SearchResultT :=
  { title := "T", artists := [], album := "Al", videoId := "v",
    browseId := "b", thumbnails := [] }

/-- C7 witness: the theorem applied at a concrete record. -/
theorem c7_empty_artists_fatal_witness :
    createSongFromSearch emptyArtistSearch "d" = Except.error "IndexError" ∧
    createAlbum (fun _ => "pid") emptyArtistSearch "d" =
      Except.error "IndexError" :=
  c7_empty_artists_fatal emptyArtistSearch "d" (fun _ => "pid") (by rfl)

/-! ## C2: cover selection -/

/-- The property the cover loop searches for: a `width` key is present
and the width is at least `THUMB_RES`. -/
def thumbQualifies (t : Thumbnail) : Bool :=
  match t.width with
  | some w => decide (THUMB_RES ≤ w)
  | none => false

theorem coverLoop_eq_find (ts : List Thumbnail) :
    coverLoop ts = (ts.find? thumbQualifies).map Thumbnail.url := by
  induction ts with
  | nil => rfl
  | cons t ts ih =>
      cases hw : t.width with
      | none =>
          rw [List.find?_cons_of_neg _ (by simp [thumbQualifies, hw])]
          simpa [coverLoop, hw] using ih
      | some w =>
          by_cases hq : THUMB_RES ≤ w
          · rw [List.find?_cons_of_pos _ (by simp [thumbQualifies, hw, hq])]
            simp [coverLoop, hw, hq]
          · rw [List.find?_cons_of_neg _ (by simp [thumbQualifies, hw, hq])]
            simpa [coverLoop, hw, hq] using ih

/-- C2: for every thumbnail list, cover selection (the loop shared by
`Song.get_cover` and `Album.get_cover`) yields the URL of the first
descriptor in list order having a width of at least 500 (descriptors
without a width field are skipped); if no descriptor qualifies, it
yields the URL of the last descriptor. -/
theorem c2_cover_selection (ts : List Thumbnail) :
    (∀ t : Thumbnail, ts.find? thumbQualifies = some t →
        selectCoverUrl ts = Except.ok t.url) ∧
    (ts.find? thumbQualifies = none →
        ∀ h : ts ≠ [], selectCoverUrl ts = Except.ok (ts.getLast h).url) := by
  constructor
  · intro t hf
    unfold selectCoverUrl
    rw [coverLoop_eq_find, hf]
    rfl
  · intro hf h
    unfold selectCoverUrl
    rw [coverLoop_eq_find, hf, List.getLast?_eq_getLast_of_ne_nil h]
    rfl

/-- C2 witness: the theorem applied at concrete thumbnail lists, one
with a qualifying descriptor (skipping a width-less one) and one
without any. -/
theorem c2_cover_selection_witness :
    selectCoverUrl [⟨some 300, "u1"⟩, ⟨none, "u2"⟩, ⟨some 600, "u3"⟩,
        ⟨some 700, "u4"⟩] = Except.ok "u3" ∧
    selectCoverUrl [⟨some 300, "u1"⟩, ⟨none, "u2"⟩] = Except.ok "u2" :=
  ⟨(c2_cover_selection _).1 ⟨some 600, "u3"⟩ (by decide),
   (c2_cover_selection _).2 (by decide) (by decide)⟩

/-! ## C3: tag skipping -/

/-- C3 counterexample: the claim reads "tagging is skipped entirely
(with a warning, without failing) if and only if the no-tag flag is set
or the mutagen tagging library is unavailable". At
`no_tag = true, mutagen available` the right-hand side holds but
`tag_items` skips silently — no warning is logged — so the biconditional
fails at this concrete input. -/
theorem c3_counterexample :
    ¬ ((((tag_items true true [MediaItemT.song sampleSongFromSearch]).processed
          = []) ∧
        ((tag_items true true [MediaItemT.song sampleSongFromSearch]).warned
          = true)) ↔
       (true = true ∨ true = false)) := by
  intro hiff
  have h := hiff.mpr (Or.inl rfl)
  exact absurd h.2 (by decide)

/-- C3 amended: tagging is skipped entirely if and only if the no-tag
flag is set or mutagen is missing from `sys.modules`, and it never
fails; the warning is logged only in the missing-mutagen case (the
no-tag skip is silent); when the flag is unset and the library is
available, `tag_items` fetches a cover for and tags every item in
`self.items`. -/
theorem c3_tag_items_amended (no_tag mutagen : Bool)
    (items : List MediaItemT) :
    (no_tag = true →
       tag_items no_tag mutagen items = ⟨[], false⟩) ∧
    (no_tag = false → mutagen = false →
       tag_items no_tag mutagen items = ⟨[], true⟩) ∧
    (no_tag = false → mutagen = true →
       tag_items no_tag mutagen items = ⟨items, false⟩) :=
  ⟨fun h => by subst h; rfl,
   fun h1 h2 => by subst h1; subst h2; rfl,
   fun h1 h2 => by subst h1; subst h2; rfl⟩

/-- C3 witness: the amended theorem applied at concrete flag values. -/
theorem c3_tag_items_amended_witness :
    tag_items true true [MediaItemT.song sampleSongFromSearch] =
      ⟨[], false⟩ ∧
    tag_items false false [MediaItemT.song sampleSongFromSearch] =
      ⟨[], true⟩ ∧
    tag_items false true [MediaItemT.song sampleSongFromSearch] =
      ⟨[MediaItemT.song sampleSongFromSearch], false⟩ :=
  ⟨(c3_tag_items_amended true true _).1 rfl,
   (c3_tag_items_amended false false _).2.1 rfl rfl,
   (c3_tag_items_amended false true _).2.2 rfl rfl⟩

/-! ## C4: artist of an album track entry -/

def c4Entry : SongInfoT :=
  { release_year := none, artist := .str "Simon, Garfunkel",
    album := "Bridge", track := "Cecilia", genre := none,
    track_number := none, n_entries := none, playlist_index := none }

/-- C4: the claim says that when a track entry's artist field is a
single string, `createSongFromSongInfo` splits it on comma and takes the
first segment, matching the rendering `Song.tag` writes. The code
instead evaluates `data["artist"][0]`, which on a string is its first
character: for the entry with artist `"Simon, Garfunkel"` the child
song's artist is `"S"`, while `Song.tag` writes `"Simon"` — the two
disagree, so the code contradicts the claimed (and clearly intended)
behavior. The list case does behave as claimed. -/
theorem c4_string_artist_divergence :
    createSongFromSongInfo c4Entry "p" = Except.ok
      { title := "Cecilia", artist := "S", path := "p", url := "",
        cover := none, info := some c4Entry, album_title := "Bridge",
        song_id := "" } ∧
    tagArtist c4Entry.artist = Except.ok "Simon" ∧
    "S" ≠ "Simon" ∧
    (∀ (data : SongInfoT) (path : String) (a : String) (rest : List String),
        data.artist = .list (a :: rest) →
        ∀ s, createSongFromSongInfo data path = Except.ok s →
          s.artist = a) := by
  refine ⟨rfl, rfl, by decide, ?_⟩
  intro data path a rest hl s h
  unfold createSongFromSongInfo at h
  rw [hl] at h
  simp only [artistIndexZero, Except.ok.injEq] at h
  subst h
  rfl

/-! ## C5: track-number fallback -/

/-- C5: for every track entry whose metadata lacks `track_number` but has
`playlist_index` (and the total count `n_entries`), `Song.tag` writes the
`trkn` tag as `(playlist_index, n_entries)`; when both `track_number` and
`playlist_index` are absent, no `trkn` tag is written and the remaining
fields are still tagged. -/
theorem c5_trkn_fallback (info : SongInfoT) (a : String) (p n : Int)
    (ha : tagArtist info.artist = Except.ok a) :
    (info.track_number = none → info.playlist_index = some p →
      info.n_entries = some n →
      songTagWritten info = Except.ok
        { art := a, alb := info.album, nam := info.track,
          day := info.release_year.map (fun y => toString y),
          gen := info.genre.map (fun g => [g]),
          trkn := some (p, n), covr := true }) ∧
    (info.track_number = none → info.playlist_index = none →
      songTagWritten info = Except.ok
        { art := a, alb := info.album, nam := info.track,
          day := info.release_year.map (fun y => toString y),
          gen := info.genre.map (fun g => [g]),
          trkn := none, covr := true }) := by
  constructor
  · intro h1 h2 h3
    have ht : trknValue info = some (p, n) := by
      unfold trknValue
      rw [h1, h2, h3]
    unfold songTagWritten
    rw [ha, ht]
  · intro h1 h2
    have ht : trknValue info = none := by
      unfold trknValue
      rw [h1, h2]
    unfold songTagWritten
    rw [ha, ht]

def c5EntryFallback : SongInfoT :=
  { release_year := some 1970, artist := .list ["Simon"], album := "B",
    track := "C", genre := some "Folk", track_number := none,
    n_entries := some 10, playlist_index := some 3 }

def c5EntryNone : SongInfoT :=
  { release_year := none, artist := .list ["Simon"], album := "B",
    track := "C", genre := none, track_number := none, n_entries := none,
    playlist_index := none }

/-- C5 witness: the theorem applied at concrete track entries. -/
theorem c5_trkn_fallback_witness :
    songTagWritten c5EntryFallback = Except.ok
      { art := "Simon", alb := "B", nam := "C", day := some "1970",
        gen := some ["Folk"], trkn := some (3, 10), covr := true } ∧
    songTagWritten c5EntryNone = Except.ok
      { art := "Simon", alb := "B", nam := "C", day := none, gen := none,
        trkn := none, covr := true } :=
  ⟨(c5_trkn_fallback c5EntryFallback "Simon" 3 10 (by rfl)).1 rfl rfl rfl,
   (c5_trkn_fallback c5EntryNone "Simon" 0 0 (by rfl)).2 rfl rfl⟩

/-! ## C6: artist tag rendering -/

theorem pySplitChars_head_of_append (sep : Char) (l₁ l₂ : List Char)
    (h : sep ∉ l₁) :
    ∃ gs, pySplitChars sep (l₁ ++ sep :: l₂) = l₁ :: gs := by
  induction l₁ with
  | nil =>
      refine ⟨pySplitChars sep l₂, ?_⟩
      simp [pySplitChars]
  | cons c rest ih =>
      have hc : ¬ c = sep := fun hcc => h (by simp [hcc])
      obtain ⟨gs, hgs⟩ := ih (fun hm => h (List.mem_cons_of_mem _ hm))
      refine ⟨gs, ?_⟩
      simp only [List.cons_append, pySplitChars]
      rw [if_neg hc]
      simp only [List.append_eq]
      rw [hgs]

theorem stringMk_data (s : String) : String.mk s.data = s := rfl

/-- C6: for every track entry whose artist field is the comma-joined
string "A, B", `Song.tag` writes "A" — the first comma-separated
segment only — as the artist tag (stated both for the literal "A, B"
and for any comma-free first segment); when the artist field is a list,
the first element of the list is written. -/
theorem c6_artist_tag (info : SongInfoT) :
    (info.artist = .str "A, B" →
        songTagWritten info = Except.ok
          { art := "A", alb := info.album, nam := info.track,
            day := info.release_year.map (fun y => toString y),
            gen := info.genre.map (fun g => [g]),
            trkn := trknValue info, covr := true }) ∧
    (∀ (a : String) (rest : List String), info.artist = .list (a :: rest) →
        songTagWritten info = Except.ok
          { art := a, alb := info.album, nam := info.track,
            day := info.release_year.map (fun y => toString y),
            gen := info.genre.map (fun g => [g]),
            trkn := trknValue info, covr := true }) ∧
    (∀ s t : String, ',' ∉ s.data →
        tagArtist (.str (s ++ "," ++ t)) = Except.ok s) := by
  refine ⟨?_, ?_, ?_⟩
  · intro h
    unfold songTagWritten
    rw [h]
    rfl
  · intro a rest h
    unfold songTagWritten
    rw [h]
    rfl
  · intro s t hs
    have hdata : (s ++ "," ++ t).data = s.data ++ ',' :: t.data := by
      rw [String.data_append, String.data_append, List.append_assoc]
      rfl
    obtain ⟨gs, hgs⟩ := pySplitChars_head_of_append ',' s.data t.data hs
    show Except.ok (pySplit ',' (s ++ "," ++ t)).headI = Except.ok s
    unfold pySplit
    rw [hdata, hgs]
    simp [stringMk_data]

def c6Entry : SongInfoT :=
  { release_year := none, artist := .str "A, B", album := "Alb",
    track := "Tr", genre := none, track_number := some 2,
    n_entries := some 12, playlist_index := none }

def c6EntryList : SongInfoT :=
  { c6Entry with artist := .list ["First artist", "Other"] }

/-- C6 witness: the theorem applied at concrete track entries and at a
concrete comma-joined string with a multi-character first segment. -/
theorem c6_artist_tag_witness :
    songTagWritten c6Entry = Except.ok
      { art := "A", alb := "Alb", nam := "Tr", day := none, gen := none,
        trkn := some (2, 12), covr := true } ∧
    songTagWritten c6EntryList = Except.ok
      { art := "First artist", alb := "Alb", nam := "Tr", day := none,
        gen := none, trkn := some (2, 12), covr := true } ∧
    tagArtist (.str ("Simon" ++ "," ++ " Garfunkel")) = Except.ok "Simon" :=
  ⟨(c6_artist_tag c6Entry).1 rfl,
   (c6_artist_tag c6EntryList).2.1 "First artist" ["Other"] rfl,
   (c6_artist_tag c6Entry).2.2 "Simon" " Garfunkel" (by decide)⟩

/-! ## C8: album song population -/

theorem buildSongs_ok_length (path : String) (l : List SongInfoT)
    (l2 : List SongT) (h : buildSongs path l = Except.ok l2) :
    l2.length = l.length := by
  induction l generalizing l2 with
  | nil =>
      unfold buildSongs at h
      simp only [Except.ok.injEq] at h
      subst h
      rfl
  | cons e rest ih =>
      unfold buildSongs at h
      cases h1 : createSongFromSongInfo e path with
      | error err => rw [h1] at h; cases h
      | ok s =>
          rw [h1] at h
          cases h2 : buildSongs path rest with
          | error err => rw [h2] at h; cases h
          | ok ss =>
              rw [h2] at h
              simp only [Except.ok.injEq] at h
              subst h
              simp [ih ss h2]

theorem buildSongs_ok_get (path : String) (l : List SongInfoT)
    (l2 : List SongT) (h : buildSongs path l = Except.ok l2) :
    ∀ (i : ℕ) (hi : i < l.length) (hi2 : i < l2.length),
      createSongFromSongInfo (l.get ⟨i, hi⟩) path =
        Except.ok (l2.get ⟨i, hi2⟩) := by
  induction l generalizing l2 with
  | nil => intro i hi; exact absurd hi (by simp)
  | cons e rest ih =>
      unfold buildSongs at h
      cases h1 : createSongFromSongInfo e path with
      | error err => rw [h1] at h; cases h
      | ok s =>
          rw [h1] at h
          cases h2 : buildSongs path rest with
          | error err => rw [h2] at h; cases h
          | ok ss =>
              rw [h2] at h
              simp only [Except.ok.injEq] at h
              subst h
              intro i hi hi2
              match i with
              | 0 => exact h1
              | i + 1 =>
                  exact ih ss h2 i (Nat.lt_of_succ_lt_succ hi)
                    (Nat.lt_of_succ_lt_succ hi2)

/-- C8: an album's songs list is empty from creation (`createAlbum`)
until its download completes; after `download` stores the fetched
metadata blob, `songs` holds exactly one child song per entry of the
blob's `entries` list, built by `createSongFromSongInfo` in entry
order. -/
theorem c8_album_songs (ga : String → String) (data : SearchResultT)
    (dir : String) (alb : AlbumT) (a a2 : AlbumT) (fetched : AlbumInfoT) :
    (createAlbum ga data dir = Except.ok alb → alb.songs = []) ∧
    (a.songs = [] → albumDownload a fetched = Except.ok a2 →
      a2.info = some fetched ∧
      a2.songs.length = fetched.entries.length ∧
      ∀ (i : ℕ) (hi : i < fetched.entries.length),
        ∃ s, a2.songs.get? i = some s ∧
          createSongFromSongInfo (fetched.entries.get ⟨i, hi⟩) a.path =
            Except.ok s) := by
  constructor
  · intro h
    unfold createAlbum at h
    cases eq : resolveArtist data.artists with
    | error e => rw [eq] at h; cases h
    | ok artist =>
        rw [eq] at h
        simp only [Except.ok.injEq] at h
        subst h
        rfl
  · intro hempty h
    unfold albumDownload addSongs at h
    simp only at h
    cases h2 : buildSongs a.path fetched.entries with
    | error err => rw [h2] at h; cases h
    | ok newSongs =>
        rw [h2] at h
        simp only [Except.ok.injEq] at h
        subst h
        have hlen := buildSongs_ok_length a.path fetched.entries newSongs h2
        refine ⟨rfl, ?_, ?_⟩
        · show (a.songs ++ newSongs).length = fetched.entries.length
          rw [hempty, List.nil_append, hlen]
        · intro i hi
          have hi2 : i < newSongs.length := by rw [hlen]; exact hi
          refine ⟨newSongs.get ⟨i, hi2⟩, ?_, ?_⟩
          · show (a.songs ++ newSongs).get? i = _
            rw [hempty, List.nil_append, List.get?_eq_get hi2]
          · exact buildSongs_ok_get a.path fetched.entries newSongs h2 i hi hi2

def sampleEntry : SongInfoT :=
  { release_year := none, artist := .list ["X"], album := "Al",
    track := "Tr", genre := none, track_number := some 1,
    n_entries := some 1, playlist_index := some 1 }

def sampleFetched : AlbumInfoT :=
  { thumbnails := [], entries := [sampleEntry] }

def sampleChildSong : SongT :=
  { title := "Tr", artist := "X", path := "d/Second/T", url := "",
    cover := none, info := some sampleEntry, album_title := "Al",
    song_id := "" }

def sampleDownloaded : AlbumT :=
  { sampleAlbumFromSearch with info := some sampleFetched, songs := [sampleChildSong] }

/-- C8 witness: the theorem applied at a concrete album and a concrete
one-entry download blob. -/
theorem c8_album_songs_witness :
    sampleAlbumFromSearch.songs = [] ∧
    sampleDownloaded.info = some sampleFetched ∧
    sampleDownloaded.songs.length = sampleFetched.entries.length ∧
    (∃ s, sampleDownloaded.songs.get? 0 = some s ∧
      createSongFromSongInfo (sampleFetched.entries.get ⟨0, by decide⟩)
          sampleAlbumFromSearch.path =
        Except.ok s) := by
  have h := c8_album_songs (fun _ => "pid") sampleSearch "d"
    sampleAlbumFromSearch sampleAlbumFromSearch sampleDownloaded
    sampleFetched
  have h2 := h.2 (by rfl) (by rfl)
  exact ⟨h.1 (by rfl), h2.1, h2.2.1, h2.2.2 0 (by decide)⟩

/-! ## C9: quitting at the choice prompt -/

theorem listArtists_ok (results : List SearchResultT)
    (h : ∀ r ∈ results, r.artists ≠ []) :
    ∃ l, listArtists results = Except.ok l := by
  induction results with
  | nil => exact ⟨[], rfl⟩
  | cons r rs ih =>
      obtain ⟨a, ha⟩ := resolveArtist_ok r.artists (h r (by simp))
      obtain ⟨l, hl⟩ := ih (fun x hx => h x (by simp [hx]))
      refine ⟨a :: l, ?_⟩
      unfold listArtists
      rw [ha, hl]

/-- C9: if the user enters the quit token "q" (after stripping and
lowercasing) at the choice prompt, the run ends immediately with exit
status 0 — `exit()` raises `SystemExit(None)` — and no media items are
created (the phase result is `exited 0`, not `built`). The listing
printed before the prompt must itself succeed, which it does whenever
every listed record has a nonempty artists list. -/
theorem c9_quit_exits_clean (is_song : Bool) (dir : String)
    (results : List SearchResultT) (line : String) (rest : List String)
    (hq : pyStripLower line = "q")
    (hres : ∀ r ∈ results, r.artists ≠ []) :
    runChoicePhase is_song dir results (line :: rest) =
      Except.ok (PhaseResult.exited 0) := by
  obtain ⟨l, hl⟩ := listArtists_ok results hres
  unfold runChoicePhase get_user_choices
  rw [hl]
  unfold choiceLoop
  rw [hq]
  simp

/-- C9 witness: the theorem applied at a concrete listing and the
scripted input line "q". -/
theorem c9_quit_exits_clean_witness :
    runChoicePhase true "d" [sampleSearch] ["q"] =
      Except.ok (PhaseResult.exited 0) :=
  c9_quit_exits_clean true "d" [sampleSearch] "q" [] (by rfl) (by decide)

/-! ## C10: choice token 0 and negative indexing -/

def c10Results : List SearchResultT :=
  [{ title := "T1", artists := [⟨"P"⟩, ⟨"Q"⟩], album := "A1",
     videoId := "v1", browseId := "b1", thumbnails := [] },
   { title := "T2", artists := [⟨"R"⟩], album := "A2", videoId := "v2",
     browseId := "b2", thumbnails := [] }]

/-- C10: the choice prompt performs no range validation — the token "0"
parses to the pick 0 — and `search_results[0 - 1]` is, by Python
negative indexing, the last element of the list, so song mode builds a
media item from the last search result (the single-file revision's album
mode likewise). In the package's album mode, however,
`create_media_items` calls `createAlbum` without its required `yt`
argument, so after the indexing succeeds the call raises `TypeError`
instead of building the item the claim describes. -/
theorem c10_zero_choice :
    choiceLoop ["0"] = ChoiceOutcome.choices [0] ∧
    pyIndex c10Results (0 - 1) = Except.ok
      { title := "T2", artists := [⟨"R"⟩], album := "A2", videoId := "v2",
        browseId := "b2", thumbnails := [] } ∧
    create_media_items_app true "d" [0] c10Results = Except.ok
      [MediaItemT.song
        { title := "T2", artist := "R", path := "d/R/A2",
          url := "https://music.youtube.com/watch?v=v2", cover := none,
          info := none, album_title := "A2", song_id := "v2" }] ∧
    create_media_items_app false "d" [0] c10Results =
      Except.error "TypeError" ∧
    create_media_items_monolith false (fun _ => "pid") "d" [0] c10Results =
      Except.ok
        [MediaItemT.album
          { title := "T2", artist := "R", path := "d/R/T2",
            url := "https://music.youtube.com/playlist?list=pid",
            cover := none, info := none, album_id := "pid", songs := [] }] :=
  ⟨rfl, rfl, rfl, rfl, rfl⟩

end Muclic
